import Mathlib

/-! A shallow embedding of `char_device_driver.c`.

The Linux character-device module `src/char_device_driver.c` keeps six
file-scope variables (`majNum`, `message`, `size_of_message`,
`numberOpens` and the two host handles) and offers the lifecycle hooks
`char_device_driver_init` / `char_device_driver_exit` and the four file
operations `dev_open`, `dev_read`, `dev_write`, `dev_release`.

Conventions of the embedding.

* A byte is a `Nat`; memory at an address is the `List Nat` of the bytes that
  start there.  `message` is the memory that starts at `&message[0]`: its
  first 256 bytes are the array, anything after that is what lies behind the
  array (the source performs no bounds check, so `sprintf` can reach it).
  Which variables lie behind the array depends on the build, so the embedding
  does not say what an overrun does to them: apart from the length a write
  records, `dev_write` is described only for writes that fit (`writeFits`).
* C integers are `Int`/`Nat` with the width made explicit: `toInt32` is the
  conversion to `int`, `toShort` the conversion to `short`, `toSizeT` the
  conversion to `unsigned long`/`size_t`, `toSSizeT` the one to `ssize_t`.
  The kernel is built with wrapping signed arithmetic.  In the wrap formulas
  the constant is the left summand, so that reduction on a symbolic argument
  stops at the argument instead of counting the numeral down.
* Host primitives (`copy_to_user`, `sprintf`, `strlen`, the registration
  calls) are modelled by their kernel contracts.  `printk` only logs and is
  left out.
-/

set_option linter.unusedVariables false

namespace CharDeviceDriver

/-! ## Machine integers -/

/-- Conversion to a 32-bit `int` (two's complement wrap). -/
def toInt32 (x : Int) : Int := (2147483648 + x) % 4294967296 - 2147483648

/-- Conversion to a 16-bit `short` (two's complement wrap). -/
def toShort (x : Int) : Int := (32768 + x) % 65536 - 32768

/-- Conversion to a 64-bit `unsigned long` / `size_t`. -/
def toSizeT (x : Int) : Nat := (x % 18446744073709551616).toNat

/-- Conversion to a 64-bit `ssize_t`. -/
def toSSizeT (x : Int) : Int :=
  (9223372036854775808 + x) % 18446744073709551616 - 9223372036854775808

/-- The errno `EFAULT` ("bad address"), 14 in the kernel headers. -/
def EFAULT : Int := 14

/-! ## Strings in memory -/

/-- The bytes of a string literal of the source. -/
def lit (s : String) : List Nat := s.toList.map Char.toNat

/-- The C string that starts at an address: the bytes before the first zero. -/
def cstr (mem : List Nat) : List Nat := mem.takeWhile (fun b => decide (b ≠ 0))

/-- The result of `strlen`: the number of bytes before the first zero. -/
def strlen (mem : List Nat) : Nat := (cstr mem).length

/-- Decimal digits of a natural number, as bytes. -/
def decimal (n : Nat) : List Nat := (Nat.toDigits 10 n).map Char.toNat

/-- What `%d` prints for an `int`. -/
def fmt_d (v : Int) : List Nat :=
  if v < 0 then 45 :: decimal v.natAbs else decimal v.toNat

/-- The text `sprintf` produces for the format `"%s(%d letters)"`: `%s` reads
the C string at `buffer`, `%d` reads its argument as an `int`. -/
def formatted (buffer : List Nat) (len : Nat) : List Nat :=
  cstr buffer ++ lit "(" ++ fmt_d (toInt32 len) ++ lit " letters)"

/-- The annotation as the specification words it,
`"<received-bytes>(<N> letters)"`: the received bytes, an opening bracket, the
count in decimal and `" letters)"`. -/
def annotated (received : List Nat) (n : Nat) : List Nat :=
  received ++ lit "(" ++ decimal n ++ lit " letters)"

/-- The effect of `sprintf(dst, ...)` on the memory at `dst`: the text, its
terminating zero, and behind that the bytes that were there before. -/
def sprintf (dst : List Nat) (text : List Nat) : List Nat :=
  text ++ 0 :: dst.drop (text.length + 1)

/-- The longest range of user addresses a copy can cover: on a 64-bit kernel
`access_ok` refuses every range longer than `LONG_MAX` bytes. -/
def USER_RANGE_MAX : Nat := 9223372036854775807

/-- The host primitive `copy_to_user(to, from, n)`.  `fault` is the number of
trailing bytes the host cannot write at the destination; the call returns the
number of bytes it did not copy (at most `n`, zero on success) together with
the destination memory afterwards.  A request longer than `USER_RANGE_MAX`
is refused whole: nothing is copied and `n` is returned. -/
def copy_to_user (dst src : List Nat) (n : Nat) (fault : Nat) : Nat × List Nat :=
  let left := if n ≤ USER_RANGE_MAX then min fault n else n
  (left, src.take (n - left) ++ dst.drop (n - left))

/-! ## The module's variables and file operations -/

/-- The file-scope variables of the module. -/
structure Globals where
  majNum : Int
  message : List Nat
  size_of_message : Int
  numberOpens : Int
  char_device_driverClass : Int
  char_device_driverDevice : Int
deriving DecidableEq

/-- The variables as the loader initialises them: `message` zeroed,
`numberOpens = 0`, the pointers `NULL`, the rest zero. -/
def Globals.initial : Globals :=
  { majNum := 0, message := List.replicate 256 0, size_of_message := 0,
    numberOpens := 0, char_device_driverClass := 0, char_device_driverDevice := 0 }

/-- Capacity of the `message` array. -/
def capacity : Nat := 256

/-- What `dev_read` hands back: its return value, the globals afterwards and
the caller's destination memory afterwards. -/
structure ReadResult where
  ret : Int
  globals : Globals
  buffer : List Nat
deriving DecidableEq

/-- `dev_open`: `numberOpens++; return 0;`. -/
def dev_open (g : Globals) : Int × Globals :=
  (0, { g with numberOpens := toInt32 (g.numberOpens + 1) })

/-- `dev_read(filep, buffer, len, offset)`. -/
def dev_read (g : Globals) (buffer : List Nat) (len : Nat) (offset : Int) (fault : Nat) :
    ReadResult :=
  let copied := copy_to_user buffer g.message (toSizeT g.size_of_message) fault
  let error_count := toInt32 copied.1
  if error_count = 0 then
    { ret := 0, globals := { g with size_of_message := 0 }, buffer := copied.2 }
  else
    { ret := -EFAULT, globals := g, buffer := copied.2 }

/-- `dev_write(filep, buffer, len, offset)`.  When the text and its
terminating zero do not fit the 256-byte array, the bytes `sprintf` writes
behind the array are kept in `message`; the variables they overwrite in a
real build are not tracked. -/
def dev_write (g : Globals) (buffer : List Nat) (len : Nat) (offset : Int) : Int × Globals :=
  let message := sprintf g.message (formatted buffer len)
  let size_of_message := toShort (strlen message)
  (toSSizeT len, { g with message := message, size_of_message := size_of_message })

/-- `dev_release`: `return 0;`. -/
def dev_release (g : Globals) : Int × Globals := (0, g)

/-- A write fits: the text `dev_write` formats, with its terminating zero,
stays inside the 256-byte `message` array. -/
def writeFits (buffer : List Nat) (len : Nat) : Bool :=
  decide ((formatted buffer len).length + 1 ≤ capacity)

/-- The copy inside `dev_read` succeeds: `copy_to_user` returns zero. -/
def copySucceeds (g : Globals) (buffer : List Nat) (fault : Nat) : Prop :=
  (copy_to_user buffer g.message (toSizeT g.size_of_message) fault).1 = 0

instance (g : Globals) (buffer : List Nat) (fault : Nat) :
    Decidable (copySucceeds g buffer fault) :=
  inferInstanceAs (Decidable (_ = 0))

/-! ## Sequences of file operations -/

/-- One call of a file operation, with the arguments the host passes. -/
inductive Call where
  | dev_open
  | dev_read (buffer : List Nat) (len : Nat) (offset : Int) (fault : Nat)
  | dev_write (buffer : List Nat) (len : Nat) (offset : Int)
  | dev_release
deriving DecidableEq

/-- Whether a call is a `dev_write`. -/
def Call.isWrite : Call → Bool
  | Call.dev_write _ _ _ => true
  | _ => false

/-- Whether a call is a `dev_open`. -/
def Call.isOpen : Call → Bool
  | Call.dev_open => true
  | _ => false

/-- Whether a call stays inside the `message` array: every call does, except
a `dev_write` whose text does not fit. -/
def Call.fits : Call → Bool
  | Call.dev_write buffer len _ => writeFits buffer len
  | _ => true

/-- The globals after one call. -/
def step (g : Globals) : Call → Globals
  | Call.dev_open => (dev_open g).2
  | Call.dev_read buffer len offset fault => (dev_read g buffer len offset fault).globals
  | Call.dev_write buffer len offset => (dev_write g buffer len offset).2
  | Call.dev_release => (dev_release g).2

/-- The globals after a sequence of calls, first call first. -/
def run (g : Globals) (calls : List Call) : Globals := calls.foldl step g

/-- The number of `dev_open` calls in a sequence. -/
def opens (calls : List Call) : Nat := calls.countP Call.isOpen

/-! ## Registration with the host -/

/-- `IS_ERR(ptr)` of the kernel: the pointer, read as a signed `long`, lies in
the last `MAX_ERRNO = 4095` addresses. -/
def IS_ERR (ptr : Int) : Bool := decide (-4095 ≤ ptr ∧ ptr < 0)

/-- `PTR_ERR(ptr)` of the kernel: the pointer as a `long`. -/
def PTR_ERR (ptr : Int) : Int := ptr

/-- `MKDEV(ma, mi)` of the kernel: `(ma << 20) | mi` as a 32-bit `dev_t`. -/
def MKDEV (ma mi : Int) : Nat :=
  (((ma % 4294967296).toNat <<< 20) ||| (mi % 4294967296).toNat) % 4294967296

/-- What the host answers to the three acquiring calls of
`char_device_driver_init`: the `int` of `register_chrdev` and the pointers of
`class_create` and `device_create`, read as signed `long`s. -/
structure Host where
  register_chrdev : Int
  class_create : Int
  device_create : Int
deriving DecidableEq

/-- A call the module makes to the host, with its arguments (and, for an
acquiring call, the host's answer). -/
inductive HostCall where
  | register_chrdev (major : Int) (result : Int)
  | class_create (result : Int)
  | device_create (cls : Int) (devt : Nat) (result : Int)
  | device_destroy (cls : Int) (devt : Nat)
  | class_unregister (cls : Int)
  | class_destroy (cls : Int)
  | unregister_chrdev (major : Int)
deriving DecidableEq

/-- A resource of the host held by the module. -/
inductive Resource where
  | majorNumber (major : Int)
  | deviceClass (cls : Int)
  | deviceNode (cls : Int) (devt : Nat)
deriving DecidableEq

/-- The resource a host call hands to the module, when it succeeds. -/
def HostCall.acquires : HostCall → Option Resource
  | HostCall.register_chrdev _ result =>
      if result < 0 then none else some (Resource.majorNumber result)
  | HostCall.class_create result =>
      if IS_ERR result then none else some (Resource.deviceClass result)
  | HostCall.device_create cls devt result =>
      if IS_ERR result then none else some (Resource.deviceNode cls devt)
  | _ => none

/-- The resource a host call gives back.  `class_unregister` and
`class_destroy` both give back the class: in the kernel `class_destroy(cls)`
is `class_unregister(cls)` behind a `NULL`/`IS_ERR` guard. -/
def HostCall.releases : HostCall → Option Resource
  | HostCall.device_destroy cls devt => some (Resource.deviceNode cls devt)
  | HostCall.class_unregister cls => some (Resource.deviceClass cls)
  | HostCall.class_destroy cls => some (Resource.deviceClass cls)
  | HostCall.unregister_chrdev major => some (Resource.majorNumber major)
  | _ => none

/-- The resources a sequence of host calls acquired, in order. -/
def acquired (calls : List HostCall) : List Resource := calls.filterMap HostCall.acquires

/-- The resources a sequence of host calls released, in order. -/
def released (calls : List HostCall) : List Resource := calls.filterMap HostCall.releases

/-- The resources still allocated after a sequence of host calls: those
acquired, less one occurrence for every release. -/
def allocated (calls : List HostCall) : List Resource :=
  (released calls).foldl List.erase (acquired calls)

/-- What `char_device_driver_init` leaves behind: its return value, the
globals and the host calls it made, in order. -/
structure InitResult where
  ret : Int
  globals : Globals
  calls : List HostCall
deriving DecidableEq

/-- `char_device_driver_init`. -/
def char_device_driver_init (g : Globals) (host : Host) : InitResult :=
  let majNum := host.register_chrdev
  let g1 := { g with majNum := majNum }
  let calls1 := [HostCall.register_chrdev 0 majNum]
  if majNum < 0 then
    { ret := majNum, globals := g1, calls := calls1 }
  else
    let cls := host.class_create
    let g2 := { g1 with char_device_driverClass := cls }
    let calls2 := calls1 ++ [HostCall.class_create cls]
    if IS_ERR cls then
      { ret := toInt32 (PTR_ERR cls), globals := g2,
        calls := calls2 ++ [HostCall.unregister_chrdev majNum] }
    else
      let dev := host.device_create
      let g3 := { g2 with char_device_driverDevice := dev }
      let calls3 := calls2 ++ [HostCall.device_create cls (MKDEV majNum 0) dev]
      if IS_ERR dev then
        { ret := toInt32 (PTR_ERR dev), globals := g3,
          calls := calls3 ++ [HostCall.class_destroy cls, HostCall.unregister_chrdev majNum] }
      else
        { ret := 0, globals := g3, calls := calls3 }

/-- `char_device_driver_exit`: the host calls it makes, in order. -/
def char_device_driver_exit (g : Globals) : List HostCall :=
  [ HostCall.device_destroy g.char_device_driverClass (MKDEV g.majNum 0),
    HostCall.class_unregister g.char_device_driverClass,
    HostCall.class_destroy g.char_device_driverClass,
    HostCall.unregister_chrdev g.majNum ]

/-- A host on which all three acquiring calls succeed: major number 240 and
two ordinary kernel pointers. -/
def Host.ready : Host :=
  { register_chrdev := 240, class_create := 4096, device_create := 8192 }

/-! ## Lemmas on machine integers and strings -/

theorem toInt32_eq_self (x : Int) (hlo : -2147483648 ≤ x) (hhi : x ≤ 2147483647) :
    toInt32 x = x := by
  unfold toInt32; omega

theorem toShort_eq_self (x : Int) (hlo : -32768 ≤ x) (hhi : x ≤ 32767) :
    toShort x = x := by
  unfold toShort; omega

theorem toSizeT_natCast (n : Nat) (h : n < 18446744073709551616) :
    toSizeT (n : Int) = n := by
  unfold toSizeT; omega

theorem cstr_append_zero (pre rest : List Nat) (h : ∀ b ∈ pre, b ≠ 0) :
    cstr (pre ++ 0 :: rest) = pre := by
  unfold cstr
  induction pre with
  | nil => simp
  | cons b bs ih =>
    have hb : b ≠ 0 := h b (List.mem_cons_self b bs)
    have hbs : ∀ c ∈ bs, c ≠ 0 := fun c hc => h c (List.mem_cons_of_mem b hc)
    have ih2 := ih hbs
    simp only [ne_eq, decide_not] at ih2
    simp [List.takeWhile_cons, hb, ih2]

theorem digitChar_toNat_ne_zero (d : Nat) (h : d < 10) : (Nat.digitChar d).toNat ≠ 0 := by
  interval_cases d <;> decide

theorem toDigitsCore_ne_zero (fuel : Nat) :
    ∀ (n : Nat) (ds : List Char), (∀ c ∈ ds, c.toNat ≠ 0) →
      ∀ c ∈ Nat.toDigitsCore 10 fuel n ds, c.toNat ≠ 0 := by
  induction fuel with
  | zero => intro n ds hds c hc; simpa [Nat.toDigitsCore] using hds c (by simpa [Nat.toDigitsCore] using hc)
  | succ fuel ih =>
    intro n ds hds c hc
    have hd : (Nat.digitChar (n % 10)).toNat ≠ 0 :=
      digitChar_toNat_ne_zero (n % 10) (Nat.mod_lt n (by decide))
    have hds2 : ∀ c ∈ Nat.digitChar (n % 10) :: ds, c.toNat ≠ 0 := by
      intro c hc
      rcases List.mem_cons.mp hc with rfl | hc
      · exact hd
      · exact hds c hc
    simp only [Nat.toDigitsCore] at hc
    split at hc
    · exact hds2 c hc
    · exact ih _ _ hds2 c hc

theorem decimal_ne_zero (n : Nat) : ∀ b ∈ decimal n, b ≠ 0 := by
  intro b hb
  unfold decimal at hb
  obtain ⟨c, hc, rfl⟩ := List.mem_map.mp hb
  exact toDigitsCore_ne_zero _ _ _ (by simp) c hc

theorem fmt_d_toInt32 (len : Nat) (h : len ≤ 2147483647) :
    fmt_d (toInt32 (len : Int)) = decimal len := by
  have h1 : toInt32 (len : Int) = (len : Int) := toInt32_eq_self _ (by omega) (by omega)
  rw [h1]
  unfold fmt_d
  have h2 : ¬ ((len : Int) < 0) := by omega
  simp [h2]

theorem formatted_eq_annotated (pre rest : List Nat) (len : Nat)
    (hpre : ∀ b ∈ pre, b ≠ 0) (hlen : len ≤ 2147483647) :
    formatted (pre ++ 0 :: rest) len = annotated pre len := by
  unfold formatted annotated
  rw [cstr_append_zero pre rest hpre, fmt_d_toInt32 len hlen]

theorem annotated_ne_zero (pre : List Nat) (len : Nat) (hpre : ∀ b ∈ pre, b ≠ 0) :
    ∀ b ∈ annotated pre len, b ≠ 0 := by
  intro b hb
  unfold annotated at hb
  simp only [List.mem_append] at hb
  rcases hb with ((hb | hb) | hb) | hb
  · exact hpre b hb
  · revert b; decide
  · exact decimal_ne_zero len b hb
  · revert b; decide

theorem annotated_length (pre : List Nat) (n : Nat) :
    (annotated pre n).length = pre.length + (decimal n).length + 10 := by
  simp only [annotated, List.length_append]
  have h1 : (lit "(").length = 1 := by decide
  have h2 : (lit " letters)").length = 9 := by decide
  omega

theorem strlen_sprintf (dst text : List Nat) (h : ∀ b ∈ text, b ≠ 0) :
    cstr (sprintf dst text) = text := by
  unfold sprintf
  exact cstr_append_zero text _ h

theorem dev_write_stores (g : Globals) (pre rest : List Nat) (len : Nat) (offset : Int)
    (hpre : ∀ b ∈ pre, b ≠ 0) (hlen : len ≤ 2147483647)
    (hshort : (annotated pre len).length ≤ 32767) :
    (dev_write g (pre ++ 0 :: rest) len offset).2.message
        = annotated pre len ++ 0 :: g.message.drop ((annotated pre len).length + 1) ∧
      cstr (dev_write g (pre ++ 0 :: rest) len offset).2.message = annotated pre len ∧
      (dev_write g (pre ++ 0 :: rest) len offset).2.size_of_message
        = ((annotated pre len).length : Int) ∧
      (dev_write g (pre ++ 0 :: rest) len offset).2.numberOpens = g.numberOpens := by
  have hf := formatted_eq_annotated pre rest len hpre hlen
  have hc := strlen_sprintf g.message (annotated pre len) (annotated_ne_zero pre len hpre)
  refine ⟨?_, ?_, ?_, ?_⟩
  · simp only [dev_write, hf]; rfl
  · simp only [dev_write, hf]; exact hc
  · simp only [dev_write, hf, strlen, hc]
    exact toShort_eq_self _ (by omega) (by omega)
  · simp only [dev_write]

theorem copy_to_user_success (dst src : List Nat) (n fault : Nat)
    (h : (copy_to_user dst src n fault).1 = 0) :
    (copy_to_user dst src n fault).2 = src.take n ++ dst.drop n := by
  simp only [copy_to_user] at h ⊢
  rw [h]; rfl

theorem dev_read_success (g : Globals) (buffer : List Nat) (len : Nat) (offset : Int)
    (fault : Nat) (hok : copySucceeds g buffer fault) :
    dev_read g buffer len offset fault =
      { ret := 0, globals := { g with size_of_message := 0 },
        buffer := g.message.take (toSizeT g.size_of_message)
          ++ buffer.drop (toSizeT g.size_of_message) } := by
  unfold copySucceeds at hok
  have h2 := copy_to_user_success _ _ _ _ hok
  simp only [dev_read, hok, h2]
  rfl

theorem toInt32_zero : toInt32 0 = 0 := toInt32_eq_self 0 (by decide) (by decide)

theorem toSizeT_zero : toSizeT 0 = 0 := by
  unfold toSizeT; rfl

theorem dev_read_empty (g : Globals) (buffer : List Nat) (len : Nat) (offset : Int)
    (fault : Nat) (h : g.size_of_message = 0) :
    dev_read g buffer len offset fault = { ret := 0, globals := g, buffer := buffer } := by
  have hg : ({ g with size_of_message := 0 } : Globals) = g := by
    cases g; simp_all
  simp only [dev_read, copy_to_user, h, toSizeT_zero, Nat.min_zero, Nat.sub_zero,
    List.take_zero, List.drop_zero, List.nil_append, hg, Nat.cast_zero, toInt32_zero,
    Nat.zero_le, if_true]

theorem step_size_zero (g : Globals) (c : Call) (hc : c.isWrite = false)
    (h : g.size_of_message = 0) : (step g c).size_of_message = 0 := by
  cases c with
  | dev_open => simpa only [step, dev_open] using h
  | dev_read buffer len offset fault =>
    simp only [step, dev_read_empty g buffer len offset fault h]; exact h
  | dev_write buffer len offset => simp [Call.isWrite] at hc
  | dev_release => simpa only [step, dev_release] using h

theorem run_size_zero (calls : List Call) :
    ∀ g : Globals, (∀ c ∈ calls, c.isWrite = false) → g.size_of_message = 0 →
      (run g calls).size_of_message = 0 := by
  induction calls with
  | nil => intro g _ h; simpa [run] using h
  | cons c cs ih =>
    intro g hcs h
    have h1 := step_size_zero g c (hcs c (List.mem_cons_self c cs)) h
    have h2 := ih (step g c) (fun d hd => hcs d (List.mem_cons_of_mem c hd)) h1
    simpa [run] using h2

theorem step_numberOpens (g : Globals) (c : Call) (hc : c.isOpen = false)
    (hfit : c.fits = true) : (step g c).numberOpens = g.numberOpens := by
  cases c with
  | dev_open => simp [Call.isOpen] at hc
  | dev_read buffer len offset fault =>
    simp only [step, dev_read]; split <;> rfl
  | dev_write buffer len offset => rfl
  | dev_release => rfl

theorem run_numberOpens (calls : List Call) :
    ∀ g : Globals, (∀ c ∈ calls, c.fits = true) → -2147483648 ≤ g.numberOpens →
      g.numberOpens + (opens calls : Int) ≤ 2147483647 →
      (run g calls).numberOpens = g.numberOpens + (opens calls : Int) := by
  induction calls with
  | nil => intro g _ _ _; simp [run, opens]
  | cons c cs ih =>
    intro g hfit hlo hhi
    have hrun : run g (c :: cs) = run (step g c) cs := rfl
    have hfc : c.fits = true := hfit c (List.mem_cons_self c cs)
    have hfcs : ∀ d ∈ cs, d.fits = true := fun d hd => hfit d (List.mem_cons_of_mem c hd)
    cases hc : c.isOpen with
    | true =>
      have hopens : opens (c :: cs) = opens cs + 1 := by
        simp [opens, List.countP_cons, hc]
      have hstep : (step g c).numberOpens = g.numberOpens + 1 := by
        cases c with
        | dev_open =>
          simp only [step, dev_open]
          exact toInt32_eq_self _ (by omega) (by omega)
        | dev_read buffer len offset fault => simp [Call.isOpen] at hc
        | dev_write buffer len offset => simp [Call.isOpen] at hc
        | dev_release => simp [Call.isOpen] at hc
      rw [hrun, ih (step g c) hfcs (by omega) (by omega), hstep, hopens]
      push_cast; omega
    | false =>
      have hopens : opens (c :: cs) = opens cs := by
        simp [opens, List.countP_cons, hc]
      have hstep := step_numberOpens g c hc hfc
      rw [hrun, ih (step g c) hfcs (by omega) (by omega), hstep, hopens]

theorem toInt32_copy_to_user_ne_zero (dst src : List Nat) (fault : Nat) (size : Int)
    (hlo : -32768 ≤ size) (hhi : size ≤ 32767)
    (h : (copy_to_user dst src (toSizeT size) fault).1 ≠ 0) :
    toInt32 ((copy_to_user dst src (toSizeT size) fault).1 : Int) ≠ 0 := by
  have hn : (0 ≤ size ∧ ((toSizeT size : Nat) : Int) = size) ∨
      (size < 0 ∧ ((toSizeT size : Nat) : Int) = 18446744073709551616 + size) := by
    unfold toSizeT; omega
  revert h hn
  generalize toSizeT size = n
  intro h hn
  simp only [copy_to_user, USER_RANGE_MAX] at h ⊢
  unfold toInt32
  split at h <;> rename_i hcase <;> simp only [hcase, if_true, if_false] <;> omega

/-! ## The claims -/

/-- C10, as stated, fails. With `len = 2^31` the `%d` conversion reads the
`size_t` as an `int`, so the stored text carries `-2147483648` and not the
decimal form of `len`; and a source of 32758 non-zero bytes gives a text of
32769 bytes, a length the `short` `size_of_message` cannot record. -/
theorem dev_write_formats_c_string_counterexample :
    cstr (dev_write Globals.initial [0] 2147483648 0).2.message
        = lit "(-2147483648 letters)" ∧
      cstr (dev_write Globals.initial [0] 2147483648 0).2.message
        ≠ annotated [] 2147483648 ∧
      (annotated (List.replicate 32758 65) 1).length = 32769 ∧
      (dev_write Globals.initial (List.replicate 32758 65 ++ 0 :: []) 1 0).2.size_of_message
        = -32767 := by
  have hpre : ∀ b ∈ List.replicate 32758 65, b ≠ 0 := by
    intro b hb
    rw [List.eq_of_mem_replicate hb]; decide
  have hlen : (annotated (List.replicate 32758 65) 1).length = 32769 := by
    have hd : (decimal 1).length = 1 := by decide
    rw [annotated_length, List.length_replicate, hd]
  have hf := formatted_eq_annotated (List.replicate 32758 65) [] 1 hpre (by decide)
  have hc := strlen_sprintf Globals.initial.message _
    (annotated_ne_zero (List.replicate 32758 65) 1 hpre)
  refine ⟨by decide, by decide, hlen, ?_⟩
  simp only [dev_write, hf, strlen, hc, hlen]
  decide

/-- C10 (amended): for every source whose first zero byte is at index
`k = pre.length` (the source is `pre ++ 0 :: rest` with `pre` free of zeros),
every `len ≤ INT_MAX` and every prior state, provided the formatted text and
its terminating zero fit the 256-byte array, `dev_write` stores
`source[0..k) ++ "(" ++ decimal(len) ++ " letters)"` as the C string at
`message` and records its length, whatever the buffer held before; the stored
text is the first `len` received bytes followed by the annotation exactly
when `k = len`. -/
theorem dev_write_formats_c_string (g : Globals) (pre rest : List Nat) (len : Nat)
    (offset : Int) (hpre : ∀ b ∈ pre, b ≠ 0) (hlen : len ≤ 2147483647)
    (hfit : (annotated pre len).length + 1 ≤ capacity) :
    cstr (dev_write g (pre ++ 0 :: rest) len offset).2.message = annotated pre len ∧
      (dev_write g (pre ++ 0 :: rest) len offset).2.size_of_message
        = ((annotated pre len).length : Int) ∧
      (∀ g2 : Globals,
        cstr (dev_write g2 (pre ++ 0 :: rest) len offset).2.message
            = cstr (dev_write g (pre ++ 0 :: rest) len offset).2.message ∧
          (dev_write g2 (pre ++ 0 :: rest) len offset).2.size_of_message
            = (dev_write g (pre ++ 0 :: rest) len offset).2.size_of_message) ∧
      (cstr (dev_write g (pre ++ 0 :: rest) len offset).2.message
          = annotated ((pre ++ 0 :: rest).take len) len ↔ pre.length = len) := by
  have hshort : (annotated pre len).length ≤ 32767 := by
    unfold capacity at hfit; omega
  have h := dev_write_stores g pre rest len offset hpre hlen hshort
  refine ⟨h.2.1, h.2.2.1, ?_, ?_⟩
  · intro g2
    have h2 := dev_write_stores g2 pre rest len offset hpre hlen hshort
    exact ⟨h2.2.1.trans h.2.1.symm, h2.2.2.1.trans h.2.2.1.symm⟩
  · rw [h.2.1]
    constructor
    · intro heq
      unfold annotated at heq
      simp only [List.append_assoc] at heq
      have hl := congrArg List.length (List.append_cancel_right heq)
      simp only [List.length_take, List.length_append, List.length_cons] at hl
      omega
    · intro hk
      subst hk
      simp

/-- C10 (amended), at the source `"hixy"` written with `len = 2`. -/
theorem dev_write_formats_c_string_witness :
    cstr (dev_write Globals.initial (lit "hixy" ++ 0 :: []) 2 0).2.message
        = annotated (lit "hixy") 2 ∧
      (dev_write Globals.initial (lit "hixy" ++ 0 :: []) 2 0).2.size_of_message
        = ((annotated (lit "hixy") 2).length : Int) :=
  have h := dev_write_formats_c_string Globals.initial (lit "hixy") [] 2 0
    (by decide) (by decide) (by decide)
  ⟨h.1, h.2.1⟩

/-- C1, as stated, fails for an input of `n` bytes that is not a C string of
length `n`. The three bytes `a`, zero, `b` written with `len = 3` fit the
buffer and the read succeeds, yet the destination does not receive
`input ++ "(3 letters)"`; the two bytes `hi` of the longer buffer `"hixy"`
written with `len = 2` come back as `"hixy(2 letters)"`. -/
theorem write_then_read_roundtrip_counterexample :
    (annotated [97, 0, 98] 3).length + 1 ≤ capacity ∧
      copySucceeds (dev_write Globals.initial ([97, 0, 98] ++ 0 :: []) 3 0).2
        (List.replicate 16 0) 0 ∧
      (dev_read (dev_write Globals.initial ([97, 0, 98] ++ 0 :: []) 3 0).2
          (List.replicate 16 0) 16 0 0).buffer
        ≠ annotated [97, 0, 98] 3
            ++ (List.replicate 16 0).drop (annotated [97, 0, 98] 3).length ∧
      (lit "hixy").take 2 = lit "hi" ∧
      (dev_read (dev_write Globals.initial (lit "hixy" ++ 0 :: []) 2 0).2
          (List.replicate 16 0) 16 0 0).buffer
        = lit "hixy(2 letters)" ++ [0] ∧
      (dev_read (dev_write Globals.initial (lit "hixy" ++ 0 :: []) 2 0).2
          (List.replicate 16 0) 16 0 0).buffer
        ≠ annotated (lit "hi") 2 ++ (List.replicate 16 0).drop (annotated (lit "hi") 2).length := by
  decide

/-- C1 (amended): for every input that holds no zero byte and is followed by
a terminating zero byte (a C string of `n = input.length` bytes) and whose
formatted form, with its terminator, fits the 256-byte buffer,
`dev_write(input, n)` followed by a successful `dev_read` delivers to the
caller's destination exactly `input ++ "(" ++ decimal(n) ++ " letters)"`
(the bytes of the destination behind it stay as they were) and leaves the
recorded length equal to 0. -/
theorem write_then_read_roundtrip (g : Globals) (input rest dst : List Nat)
    (woffset roffset : Int) (rlen fault : Nat)
    (hinput : ∀ b ∈ input, b ≠ 0)
    (hfit : (annotated input input.length).length + 1 ≤ capacity)
    (hok : copySucceeds (dev_write g (input ++ 0 :: rest) input.length woffset).2 dst fault) :
    (dev_read (dev_write g (input ++ 0 :: rest) input.length woffset).2
        dst rlen roffset fault).buffer
      = annotated input input.length ++ dst.drop (annotated input input.length).length ∧
    (dev_read (dev_write g (input ++ 0 :: rest) input.length woffset).2
        dst rlen roffset fault).globals.size_of_message = 0 := by
  have hcap : (annotated input input.length).length ≤ 255 := by
    unfold capacity at hfit; omega
  have hn : input.length ≤ 2147483647 := by
    have := annotated_length input input.length
    omega
  have h := dev_write_stores g input rest input.length woffset hinput hn (by omega)
  rw [dev_read_success _ dst rlen roffset fault hok]
  refine ⟨?_, rfl⟩
  show List.take _ _ ++ List.drop _ dst = _
  rw [h.2.2.1, toSizeT_natCast _ (by omega), h.1]
  simp

/-- C1 (amended), at the spec's example: `write("hi", 2)` then `read` delivers
`"hi(2 letters)"`, which is 13 bytes long, and empties the buffer. -/
theorem write_then_read_roundtrip_witness :
    (dev_read (dev_write Globals.initial (lit "hi" ++ 0 :: []) 2 0).2
        (List.replicate 16 0) 16 0 0).buffer
      = lit "hi(2 letters)" ++ [0, 0, 0] ∧
    (lit "hi(2 letters)").length = 13 ∧
    (dev_read (dev_write Globals.initial (lit "hi" ++ 0 :: []) 2 0).2
        (List.replicate 16 0) 16 0 0).globals.size_of_message = 0 :=
  have h := write_then_read_roundtrip Globals.initial (lit "hi") [] (List.replicate 16 0)
    0 0 16 0 (by decide) (by decide) (by decide)
  ⟨h.1, by decide, h.2⟩

/-- C2, as stated, fails: with `"hi(2 letters)"` stored the copy succeeds and
13 bytes reach the destination, but `dev_read` returns 0, not 13. -/
theorem dev_read_returns_zero_counterexample :
    (dev_write Globals.initial (lit "hi" ++ 0 :: []) 2 0).2.size_of_message = 13 ∧
      copySucceeds (dev_write Globals.initial (lit "hi" ++ 0 :: []) 2 0).2
        (List.replicate 16 0) 0 ∧
      (dev_read (dev_write Globals.initial (lit "hi" ++ 0 :: []) 2 0).2
          (List.replicate 16 0) 16 0 0).ret = 0 ∧
      (dev_read (dev_write Globals.initial (lit "hi" ++ 0 :: []) 2 0).2
          (List.replicate 16 0) 16 0 0).ret
        ≠ (dev_write Globals.initial (lit "hi" ++ 0 :: []) 2 0).2.size_of_message := by
  decide

/-- C2 (amended): for every state in which the copy to the caller succeeds,
`dev_read` copies as many bytes of `message` as the recorded length
(`size_of_message`) had immediately before the read, resets the recorded
length to zero and nothing else, and returns 0 (the value of the assignment
`size_of_message = 0`). -/
theorem dev_read_returns_zero (g : Globals) (buffer : List Nat) (len : Nat) (offset : Int)
    (fault : Nat) (hok : copySucceeds g buffer fault) :
    (dev_read g buffer len offset fault).ret = 0 ∧
      (dev_read g buffer len offset fault).globals = { g with size_of_message := 0 } ∧
      (dev_read g buffer len offset fault).buffer
        = g.message.take (toSizeT g.size_of_message)
            ++ buffer.drop (toSizeT g.size_of_message) := by
  rw [dev_read_success g buffer len offset fault hok]
  exact ⟨rfl, rfl, rfl⟩

/-- C2 (amended), at the state that holds `"hi(2 letters)"`. -/
theorem dev_read_returns_zero_witness :
    copySucceeds (dev_write Globals.initial (lit "hi" ++ 0 :: []) 2 0).2
        (List.replicate 16 0) 0 ∧
      (dev_read (dev_write Globals.initial (lit "hi" ++ 0 :: []) 2 0).2
          (List.replicate 16 0) 16 0 0).ret = 0 ∧
      (dev_read (dev_write Globals.initial (lit "hi" ++ 0 :: []) 2 0).2
          (List.replicate 16 0) 16 0 0).globals.size_of_message = 0 :=
  have h := dev_read_returns_zero (dev_write Globals.initial (lit "hi" ++ 0 :: []) 2 0).2
    (List.replicate 16 0) 16 0 0 (by decide)
  ⟨by decide, h.1, by rw [h.2.1]⟩

/-- C3: for every state holding `N` valid bytes, a successful `dev_read`
delivers the first `N` bytes of `message` (the full stored content) to the
destination; the read that follows it delivers 0 bytes (the destination is
left as it was) and returns 0, and so does every read after any further
sequence of calls that holds no `dev_write`. -/
theorem dev_read_drains (g : Globals) (N : Nat) (buffer : List Nat) (len : Nat)
    (offset : Int) (fault : Nat)
    (hN : g.size_of_message = (N : Int)) (hshort : N ≤ 32767)
    (hok : copySucceeds g buffer fault) :
    (dev_read g buffer len offset fault).buffer = g.message.take N ++ buffer.drop N ∧
      (∀ (buffer2 : List Nat) (len2 : Nat) (offset2 : Int) (fault2 : Nat),
        (dev_read (dev_read g buffer len offset fault).globals
            buffer2 len2 offset2 fault2).ret = 0 ∧
          (dev_read (dev_read g buffer len offset fault).globals
            buffer2 len2 offset2 fault2).buffer = buffer2) ∧
      (∀ calls : List Call, (∀ c ∈ calls, c.isWrite = false) →
        ∀ (buffer3 : List Nat) (len3 : Nat) (offset3 : Int) (fault3 : Nat),
          (dev_read (run (dev_read g buffer len offset fault).globals calls)
              buffer3 len3 offset3 fault3).ret = 0 ∧
            (dev_read (run (dev_read g buffer len offset fault).globals calls)
              buffer3 len3 offset3 fault3).buffer = buffer3) := by
  have hempty : (dev_read g buffer len offset fault).globals.size_of_message = 0 := by
    rw [dev_read_success g buffer len offset fault hok]
  refine ⟨?_, ?_, ?_⟩
  · rw [dev_read_success g buffer len offset fault hok]
    show List.take _ _ ++ List.drop _ _ = _
    rw [hN, toSizeT_natCast N (by omega)]
  · intro buffer2 len2 offset2 fault2
    rw [dev_read_empty _ buffer2 len2 offset2 fault2 hempty]
    exact ⟨rfl, rfl⟩
  · intro calls hcalls buffer3 len3 offset3 fault3
    rw [dev_read_empty _ buffer3 len3 offset3 fault3 (run_size_zero calls _ hcalls hempty)]
    exact ⟨rfl, rfl⟩

/-- C3, at the state that holds the 13 bytes `"hi(2 letters)"`: the first
read delivers them, the second read leaves its destination untouched. -/
theorem dev_read_drains_witness :
    (dev_read (dev_write Globals.initial (lit "hi" ++ 0 :: []) 2 0).2
        (List.replicate 16 0) 16 0 0).buffer = lit "hi(2 letters)" ++ [0, 0, 0] ∧
      (dev_read (dev_read (dev_write Globals.initial (lit "hi" ++ 0 :: []) 2 0).2
        (List.replicate 16 0) 16 0 0).globals (List.replicate 16 7) 16 0 0).ret = 0 ∧
      (dev_read (dev_read (dev_write Globals.initial (lit "hi" ++ 0 :: []) 2 0).2
        (List.replicate 16 0) 16 0 0).globals (List.replicate 16 7) 16 0 0).buffer
        = List.replicate 16 7 :=
  have h := dev_read_drains (dev_write Globals.initial (lit "hi" ++ 0 :: []) 2 0).2 13
    (List.replicate 16 0) 16 0 0 (by decide) (by decide) (by decide)
  ⟨h.1, (h.2.1 (List.replicate 16 7) 16 0 0).1, (h.2.1 (List.replicate 16 7) 16 0 0).2⟩

/-- C4: in every state (the recorded length ranging over all of `short`),
whenever `copy_to_user` returns non-zero `dev_read` returns `-EFAULT = -14`
and leaves all globals (recorded length, buffer contents, open counter) as
they were, so that any read retried afterwards behaves exactly as it would
have in the state before the fault. -/
theorem dev_read_fault_atomic (g : Globals) (buffer : List Nat) (len : Nat) (offset : Int)
    (fault : Nat) (hlo : -32768 ≤ g.size_of_message) (hhi : g.size_of_message ≤ 32767)
    (hfault : (copy_to_user buffer g.message (toSizeT g.size_of_message) fault).1 ≠ 0) :
    (dev_read g buffer len offset fault).ret = -14 ∧
      (dev_read g buffer len offset fault).globals = g ∧
      (∀ (buffer2 : List Nat) (len2 : Nat) (offset2 : Int) (fault2 : Nat),
        dev_read (dev_read g buffer len offset fault).globals buffer2 len2 offset2 fault2
          = dev_read g buffer2 len2 offset2 fault2) := by
  have herr : toInt32
      ((copy_to_user buffer g.message (toSizeT g.size_of_message) fault).1 : Int) ≠ 0 :=
    toInt32_copy_to_user_ne_zero buffer g.message fault g.size_of_message hlo hhi hfault
  have hr : dev_read g buffer len offset fault
      = { ret := -EFAULT, globals := g,
          buffer := (copy_to_user buffer g.message (toSizeT g.size_of_message) fault).2 } := by
    simp only [dev_read, herr, if_false]
  rw [hr]
  exact ⟨rfl, rfl, fun _ _ _ _ => rfl⟩

/-- C4, at the state that holds `"hi(2 letters)"` and a destination of which
the host cannot write the last 5 bytes, and at a state whose recorded length
is the negative `short` -32767 (the copy is then asked for more bytes than
any user range holds and is refused whole). -/
theorem dev_read_fault_atomic_witness :
    (copy_to_user (List.replicate 16 0)
        (dev_write Globals.initial (lit "hi" ++ 0 :: []) 2 0).2.message 13 5).1 ≠ 0 ∧
      (dev_read (dev_write Globals.initial (lit "hi" ++ 0 :: []) 2 0).2
        (List.replicate 16 0) 16 0 5).ret = -14 ∧
      (dev_read (dev_write Globals.initial (lit "hi" ++ 0 :: []) 2 0).2
        (List.replicate 16 0) 16 0 5).globals
        = (dev_write Globals.initial (lit "hi" ++ 0 :: []) 2 0).2 ∧
      (dev_read { Globals.initial with size_of_message := -32767 }
        (List.replicate 16 0) 16 0 4294967296).ret = -14 ∧
      (dev_read { Globals.initial with size_of_message := -32767 }
        (List.replicate 16 0) 16 0 4294967296).globals
        = { Globals.initial with size_of_message := -32767 } :=
  have h := dev_read_fault_atomic (dev_write Globals.initial (lit "hi" ++ 0 :: []) 2 0).2
    (List.replicate 16 0) 16 0 5 (by decide) (by decide) (by decide)
  have h2 := dev_read_fault_atomic { Globals.initial with size_of_message := -32767 }
    (List.replicate 16 0) 16 0 4294967296 (by decide) (by decide) (by decide)
  ⟨by decide, h.1, h.2.1, h2.1, h2.2.1⟩

/-- C5 fails on the code: from the initial state, a `dev_write` of 250 bytes
`A` is formatted into 263 bytes, past the 256-byte array, and the recorded
length becomes 263, which exceeds the capacity. -/
theorem dev_write_exceeds_capacity :
    Globals.initial.size_of_message = 0 ∧
      (dev_write Globals.initial (List.replicate 250 65 ++ 0 :: []) 250 0).1 = 250 ∧
      (dev_write Globals.initial (List.replicate 250 65 ++ 0 :: []) 250 0).2.size_of_message
        = 263 ∧
      ¬ ((dev_write Globals.initial (List.replicate 250 65 ++ 0 :: []) 250 0).2.size_of_message
        ≤ (capacity : Int)) := by
  have hpre : ∀ b ∈ List.replicate 250 65, b ≠ 0 := by
    intro b hb
    rw [List.eq_of_mem_replicate hb]; decide
  have hd : (decimal 250).length = 3 := by decide
  have hlen : (annotated (List.replicate 250 65) 250).length = 263 := by
    rw [annotated_length, List.length_replicate, hd]
  have h := (dev_write_stores Globals.initial (List.replicate 250 65) [] 250 0 hpre
    (by decide) (by omega)).2.2.1
  rw [hlen] at h
  refine ⟨rfl, ?_, by exact_mod_cast h, ?_⟩
  · show toSSizeT _ = 250
    decide
  · rw [h]; decide

/-- C6, as stated, fails at the top of the `int` range: with
`numberOpens = INT_MAX` a `dev_open` does not raise the counter by 1, it wraps
it to `INT_MIN`. -/
theorem dev_open_counter_counterexample :
    (dev_open { Globals.initial with numberOpens := 2147483647 }).2.numberOpens
        = -2147483648 ∧
      (dev_open { Globals.initial with numberOpens := 2147483647 }).2.numberOpens
        ≠ 2147483647 + 1 ∧
      (run { Globals.initial with numberOpens := 2147483647 } [Call.dev_open]).numberOpens
        ≠ 2147483647 + (opens [Call.dev_open] : Int) := by
  decide

/-- C6 (amended): `numberOpens` is a 32-bit `int`. Every `dev_open` call
returns 0, leaves the buffer and its recorded length unchanged and, while the
counter is below `INT_MAX`, increases `numberOpens` by exactly 1; `dev_read`
and `dev_release` never change `numberOpens`, and neither does a `dev_write`
whose formatted text and terminating zero fit the 256-byte array; hence
after any interleaved sequence of the four operations in which every write
fits and which does not take the counter past `INT_MAX`, the counter equals
its initial value plus the number of open calls in the sequence. -/
theorem dev_open_counter (g : Globals) (calls : List Call)
    (hlo : -2147483648 ≤ g.numberOpens)
    (hhi : g.numberOpens + (opens calls : Int) ≤ 2147483647)
    (hfit : ∀ c ∈ calls, c.fits = true) :
    (dev_open g).1 = 0 ∧
      (g.numberOpens < 2147483647 → (dev_open g).2.numberOpens = g.numberOpens + 1) ∧
      (dev_open g).2.message = g.message ∧
      (dev_open g).2.size_of_message = g.size_of_message ∧
      (∀ (buffer : List Nat) (len : Nat) (offset : Int) (fault : Nat),
        (dev_read g buffer len offset fault).globals.numberOpens = g.numberOpens) ∧
      (∀ (buffer : List Nat) (len : Nat) (offset : Int), writeFits buffer len = true →
        (dev_write g buffer len offset).2.numberOpens = g.numberOpens) ∧
      (dev_release g).2.numberOpens = g.numberOpens ∧
      (run g calls).numberOpens = g.numberOpens + (opens calls : Int) := by
  refine ⟨rfl, ?_, rfl, rfl, ?_, ?_, rfl, run_numberOpens calls g hfit hlo hhi⟩
  · intro h
    simp only [dev_open]
    exact toInt32_eq_self _ (by omega) (by omega)
  · intro buffer len offset fault
    exact step_numberOpens g (Call.dev_read buffer len offset fault) rfl rfl
  · intro buffer len offset hw
    exact step_numberOpens g (Call.dev_write buffer len offset) rfl hw

/-- C6 (amended), on the sequence open, write, open, read, release, open run
from the initial state, whose one write (`"hi"`, 13 bytes of text) fits: the
counter ends at 3. -/
theorem dev_open_counter_witness :
    (∀ c ∈ [Call.dev_open, Call.dev_write (lit "hi" ++ 0 :: []) 2 0, Call.dev_open,
          Call.dev_read (List.replicate 16 0) 16 0 0, Call.dev_release,
          Call.dev_open], c.fits = true) ∧
    (run Globals.initial
        [Call.dev_open, Call.dev_write (lit "hi" ++ 0 :: []) 2 0, Call.dev_open,
          Call.dev_read (List.replicate 16 0) 16 0 0, Call.dev_release,
          Call.dev_open]).numberOpens = 3 :=
  ⟨by decide,
    (dev_open_counter Globals.initial
      [Call.dev_open, Call.dev_write (lit "hi" ++ 0 :: []) 2 0, Call.dev_open,
        Call.dev_read (List.replicate 16 0) 16 0 0, Call.dev_release, Call.dev_open]
      (by decide) (by decide) (by decide)).2.2.2.2.2.2.2⟩

/-- C9: `dev_read` does not look at the requested length or the offset. For
every state, destination and host answer, any two requested lengths and
offsets give the same return value, the same resulting globals and the same
destination contents; the copy it asks of the host is for exactly the
recorded length, so a successful read puts the first `size_of_message` bytes
of `message` at the destination even when fewer were requested. -/
theorem dev_read_ignores_len_offset (g : Globals) (buffer : List Nat) (fault : Nat)
    (len1 len2 : Nat) (offset1 offset2 : Int) :
    dev_read g buffer len1 offset1 fault = dev_read g buffer len2 offset2 fault ∧
      (dev_read g buffer len1 offset1 fault).buffer
        = (copy_to_user buffer g.message (toSizeT g.size_of_message) fault).2 ∧
      (copySucceeds g buffer fault →
        (dev_read g buffer len1 offset1 fault).buffer
          = g.message.take (toSizeT g.size_of_message)
              ++ buffer.drop (toSizeT g.size_of_message)) := by
  refine ⟨rfl, ?_, ?_⟩
  · simp only [dev_read]; split <;> rfl
  · intro hok
    rw [dev_read_success g buffer len1 offset1 fault hok]

/-- C9, at the state that holds the 13 bytes `"hi(2 letters)"`: a read that
asks for 1 byte at offset 0 and one that asks for 16 bytes at offset 5 both
deliver all 13 bytes. -/
theorem dev_read_ignores_len_offset_witness :
    dev_read (dev_write Globals.initial (lit "hi" ++ 0 :: []) 2 0).2
        (List.replicate 16 0) 1 0 0
      = dev_read (dev_write Globals.initial (lit "hi" ++ 0 :: []) 2 0).2
        (List.replicate 16 0) 16 5 0 ∧
    (dev_read (dev_write Globals.initial (lit "hi" ++ 0 :: []) 2 0).2
        (List.replicate 16 0) 1 0 0).buffer = lit "hi(2 letters)" ++ [0, 0, 0] :=
  have h := dev_read_ignores_len_offset (dev_write Globals.initial (lit "hi" ++ 0 :: []) 2 0).2
    (List.replicate 16 0) 0 1 16 0 5
  ⟨h.1, h.2.2 (by decide)⟩

/-- C7: whatever the host answers to `register_chrdev`, `class_create` and
`device_create`, `char_device_driver_init` returns the error code of the
first step that fails, after releasing what the earlier steps acquired in
reverse order of acquisition (nothing; the major number; the class and then
the major number), so that a failure at any stage leaves nothing allocated;
it returns 0 exactly when all three steps succeed, and then holds the major
number, the class and the device node. -/
theorem char_device_driver_init_rollback (g : Globals) (host : Host) :
    (host.register_chrdev < 0 →
      (char_device_driver_init g host).ret = host.register_chrdev ∧
        acquired (char_device_driver_init g host).calls = [] ∧
        released (char_device_driver_init g host).calls = []) ∧
    (0 ≤ host.register_chrdev → IS_ERR host.class_create = true →
      (char_device_driver_init g host).ret = PTR_ERR host.class_create ∧
        acquired (char_device_driver_init g host).calls
          = [Resource.majorNumber host.register_chrdev] ∧
        released (char_device_driver_init g host).calls
          = [Resource.majorNumber host.register_chrdev]) ∧
    (0 ≤ host.register_chrdev → IS_ERR host.class_create = false →
        IS_ERR host.device_create = true →
      (char_device_driver_init g host).ret = PTR_ERR host.device_create ∧
        acquired (char_device_driver_init g host).calls
          = [Resource.majorNumber host.register_chrdev,
              Resource.deviceClass host.class_create] ∧
        released (char_device_driver_init g host).calls
          = [Resource.deviceClass host.class_create,
              Resource.majorNumber host.register_chrdev]) ∧
    ((char_device_driver_init g host).ret = 0 ↔
      (0 ≤ host.register_chrdev ∧ IS_ERR host.class_create = false ∧
        IS_ERR host.device_create = false)) ∧
    ((char_device_driver_init g host).ret ≠ 0 →
      released (char_device_driver_init g host).calls
          = (acquired (char_device_driver_init g host).calls).reverse ∧
        allocated (char_device_driver_init g host).calls = []) ∧
    ((char_device_driver_init g host).ret = 0 →
      released (char_device_driver_init g host).calls = [] ∧
        allocated (char_device_driver_init g host).calls
          = [Resource.majorNumber host.register_chrdev,
              Resource.deviceClass host.class_create,
              Resource.deviceNode host.class_create (MKDEV host.register_chrdev 0)]) := by
  have hptr : ∀ p : Int, IS_ERR p = true → toInt32 p = p ∧ p ≠ 0 := by
    intro p hp
    simp only [IS_ERR, decide_eq_true_eq] at hp
    exact ⟨toInt32_eq_self _ (by omega) (by omega), by omega⟩
  by_cases h1 : host.register_chrdev < 0
  · have h1ne : host.register_chrdev ≠ 0 := by omega
    have h1not : ¬ (0 ≤ host.register_chrdev) := by omega
    simp [char_device_driver_init, acquired, released, allocated, HostCall.acquires,
      HostCall.releases, h1, h1ne, h1not]
  · have h1pos : 0 ≤ host.register_chrdev := by omega
    cases h2 : IS_ERR host.class_create with
    | true =>
      obtain ⟨hret, hne⟩ := hptr _ h2
      simp [char_device_driver_init, acquired, released, allocated, HostCall.acquires,
        HostCall.releases, h1, h1pos, h2, hret, hne, PTR_ERR]
    | false =>
      cases h3 : IS_ERR host.device_create with
      | true =>
        obtain ⟨hret, hne⟩ := hptr _ h3
        simp [char_device_driver_init, acquired, released, allocated, HostCall.acquires,
          HostCall.releases, h1, h1pos, h2, h3, hret, hne, PTR_ERR]
      | false =>
        simp [char_device_driver_init, acquired, released, allocated, HostCall.acquires,
          HostCall.releases, h1, h1pos, h2, h3]

/-- C7, with a failure forced at each stage in turn (`-EBUSY`, then
`-ENOMEM` pointers): each time the error code comes back and nothing stays
allocated; on the host where all three succeed the result is 0. -/
theorem char_device_driver_init_rollback_witness :
    (char_device_driver_init Globals.initial { Host.ready with register_chrdev := -16 }).ret
        = -16 ∧
      allocated (char_device_driver_init Globals.initial
        { Host.ready with register_chrdev := -16 }).calls = [] ∧
      (char_device_driver_init Globals.initial { Host.ready with class_create := -12 }).ret
        = -12 ∧
      allocated (char_device_driver_init Globals.initial
        { Host.ready with class_create := -12 }).calls = [] ∧
      (char_device_driver_init Globals.initial { Host.ready with device_create := -12 }).ret
        = -12 ∧
      allocated (char_device_driver_init Globals.initial
        { Host.ready with device_create := -12 }).calls = [] ∧
      (char_device_driver_init Globals.initial Host.ready).ret = 0 :=
  have a := char_device_driver_init_rollback Globals.initial
    { Host.ready with register_chrdev := -16 }
  have b := char_device_driver_init_rollback Globals.initial
    { Host.ready with class_create := -12 }
  have c := char_device_driver_init_rollback Globals.initial
    { Host.ready with device_create := -12 }
  have d := char_device_driver_init_rollback Globals.initial Host.ready
  ⟨(a.1 (by decide)).1, (a.2.2.2.2.1 (by decide)).2,
    (b.2.1 (by decide) (by decide)).1, (b.2.2.2.2.1 (by decide)).2,
    (c.2.2.1 (by decide) (by decide) (by decide)).1, (c.2.2.2.2.1 (by decide)).2,
    d.2.2.2.1.mpr (by decide)⟩

/-- C8 fails on the code: from the fully registered state (all three host
calls of `char_device_driver_init` succeeded) `char_device_driver_exit`
releases the device node, then the class, then the major number, but it gives
the class back twice, through `class_unregister` and again through
`class_destroy`; the rollback inside `char_device_driver_init` gives the
class back once, through `class_destroy` alone. -/
theorem char_device_driver_exit_releases_class_twice :
    (char_device_driver_init Globals.initial Host.ready).ret = 0 ∧
      char_device_driver_exit (char_device_driver_init Globals.initial Host.ready).globals
        = [HostCall.device_destroy 4096 (MKDEV 240 0), HostCall.class_unregister 4096,
            HostCall.class_destroy 4096, HostCall.unregister_chrdev 240] ∧
      released
          (char_device_driver_exit (char_device_driver_init Globals.initial Host.ready).globals)
        = [Resource.deviceNode 4096 (MKDEV 240 0), Resource.deviceClass 4096,
            Resource.deviceClass 4096, Resource.majorNumber 240] ∧
      (released
          (char_device_driver_exit
            (char_device_driver_init Globals.initial Host.ready).globals)).count
        (Resource.deviceClass 4096) = 2 ∧
      (released (char_device_driver_init Globals.initial
          { Host.ready with device_create := -12 }).calls).count
        (Resource.deviceClass 4096) = 1 := by
  decide

end CharDeviceDriver
